import Mathlib

/-!
# Verification of the arc-backend order checkout / stock workflow

Shallow embedding of the order-related controller functions of the
`arc-backend` repository (`src/controllers/healthController.ts`, order
section, together with the Mongoose models `Order.ts`, `Product`/SKU and
`Cart`).  Prices, weights and money amounts are JS numbers; they are
modelled as rationals (`ℚ`).  Stock is a JS number mutated with the
MongoDB `$inc` operator, which bypasses the schema `min: 0` validator,
so it is modelled as `Int` (it can go negative).  Mongo object ids are
modelled as `Nat`.
-/

namespace Arc

/-- One SKU variant of a product (`ISKU` in the Product model). -/
structure SKU where
  sku : String
  size : String
  color : String
  stock : Int
  price : ℚ
  weight : ℚ
  images : List String
  isActive : Bool
  deriving Repr, DecidableEq

/-- A catalog product (`IProduct`), restricted to the fields the order
controllers read. -/
structure Product where
  id : Nat
  name : String
  isActive : Bool
  images : List String
  skus : List SKU
  deriving Repr, DecidableEq

/-- A cart line (`ICartItem`). -/
structure CartItem where
  product : Nat
  sku : String
  quantity : Nat
  price : ℚ
  deriving Repr, DecidableEq

/-- A per-user cart (`ICart`). -/
structure Cart where
  user : Nat
  items : List CartItem
  deriving Repr, DecidableEq

/-- Order fulfillment status (`status` enum of the Order schema). -/
inductive OrderStatus where
  | pending | confirmed | processing | shipped | delivered | cancelled | returned
  deriving Repr, DecidableEq

/-- Payment status (`paymentStatus` enum of the Order schema). -/
inductive PaymentStatus where
  | pending | paid | failed | refunded
  deriving Repr, DecidableEq

/-- An order line snapshot (`IOrderItem`). -/
structure OrderItem where
  product : Nat
  sku : String
  productName : String
  size : String
  color : String
  quantity : Nat
  price : ℚ
  weight : ℚ
  image : String
  deriving Repr, DecidableEq

/-- An order document (`IOrder`), restricted to the fields the order
controllers read or write. -/
structure Order where
  id : Nat
  user : Nat
  items : List OrderItem
  subtotal : ℚ
  shippingCost : ℚ
  taxAmount : ℚ
  discountAmount : ℚ
  totalAmount : ℚ
  shippingAddress : String
  shippingMethod : String
  paymentMethod : String
  status : OrderStatus
  paymentStatus : PaymentStatus
  trackingNumber : Option String
  estimatedDelivery : Option String
  paymentId : Option String
  paidAt : Bool
  notes : Option String
  cancelReason : Option String
  deriving Repr, DecidableEq

/-- The persistent store: `Product`, `Cart` and `Order` collections.
`nextOrderId` models Mongo generating a fresh `_id` on insert. -/
structure St where
  catalog : List Product
  carts : List Cart
  orders : List Order
  nextOrderId : Nat
  deriving Repr, DecidableEq

/-- Errors surfaced by the checkout controller (the 400/500 JSON error
responses).  `validationFailed` is a Mongoose schema-validation error
thrown by `order.save()`; like `persistence` it surfaces through the
catch as the generic 500. -/
inductive CheckoutError where
  | emptyCart
  | productUnavailable (productId : Nat)
  | insufficientStock (productName : String) (sku : String)
  | validationFailed
  | persistence
  deriving Repr, DecidableEq

/-- Errors surfaced by the order read/cancel/update controllers. -/
inductive OrderError where
  | orderNotFound
  | invalidOrderState
  deriving Repr, DecidableEq

/-- JS `a || b` on strings: falls through on the empty string
(`sku.images[0] || product.images[0] || ''`). -/
def jsOr (a b : String) : String :=
  if a = "" then b else a

/-- JS truthiness guard `if (x) target = x` for optional string fields:
the assignment is skipped when the value is absent or the empty string. -/
def jsOrSet (newVal oldVal : Option String) : Option String :=
  match newVal with
  | some v => if v = "" then oldVal else some v
  | none => oldVal

/-- `Product.findById`. -/
def findProduct (catalog : List Product) (pid : Nat) : Option Product :=
  catalog.find? (fun p => p.id == pid)

/-- `orders.find?` on `{_id: orderId}` (`Order.findById`). -/
def findOrderById (orders : List Order) (oid : Nat) : Option Order :=
  orders.find? (fun o => o.id == oid)

/-- `Order.findOne({_id: orderId, user: userId})`. -/
def findOrderByIdAndUser (orders : List Order) (oid uid : Nat) : Option Order :=
  orders.find? (fun o => o.id == oid && o.user == uid)

/-- `order.save()` on a fetched document: replaces the stored document
with the same id. -/
def saveOrder : List Order → Order → List Order
  | [], _ => []
  | o :: os, o' => if o.id == o'.id then o' :: os else o :: saveOrder os o'

/-- `$inc` with the positional operator `skus.$.stock`: bump the stock of
the first SKU in the list whose code matches. -/
def incFirstSku : List SKU → String → Int → List SKU
  | [], _, _ => []
  | k :: ks, sk, d =>
    if k.sku == sk then { k with stock := k.stock + d } :: ks
    else k :: incFirstSku ks sk d

/-- `Product.updateOne({_id: pid, 'skus.sku': sk}, {$inc: {'skus.$.stock': d}})`:
update the first product matching both conditions; no-op when none
matches (this is how Mongo treats a vanished product/SKU). -/
def updateOneInc : List Product → Nat → String → Int → List Product
  | [], _, _, _ => []
  | p :: ps, pid, sk, d =>
    if p.id == pid && p.skus.any (fun k => k.sku == sk) then
      { p with skus := incFirstSku p.skus sk d } :: ps
    else
      p :: updateOneInc ps pid sk d

/-- Observe the stock of the SKU the `updateOne` filter
`{_id: pid, 'skus.sku': sk}` addresses. -/
def lookupStock (catalog : List Product) (pid : Nat) (sk : String) : Option Int :=
  (catalog.find? (fun p => p.id == pid && p.skus.any (fun k => k.sku == sk))).bind
    (fun p => (p.skus.find? (fun k => k.sku == sk)).map (fun k => k.stock))

/-- `calculateShippingCost` (healthController): total weight is
`Σ weight × quantity` over the items, then a per-method formula with the
`default` branch returning the flat 15000. -/
def calculateShippingCost (shippingMethod : String) (items : List OrderItem) : ℚ :=
  let totalWeight := items.foldl (fun t i => t + i.weight * (i.quantity : ℚ)) 0
  if shippingMethod = "regular" then max 15000 (totalWeight * (1 / 100))
  else if shippingMethod = "express" then max 25000 (totalWeight * (2 / 100))
  else if shippingMethod = "same_day" then max 50000 (totalWeight * (3 / 100))
  else 15000

/-- The checkout validation loop (healthController lines 871–906): for
each cart line re-fetch the product, reject inactive/missing products and
lines whose SKU is missing or has `stock < quantity`, and accumulate the
`OrderItem` snapshots and the subtotal. -/
def buildOrderItems (catalog : List Product) :
    List CartItem → Except CheckoutError (List OrderItem × ℚ)
  | [] => .ok ([], 0)
  | ci :: rest =>
    match findProduct catalog ci.product with
    | none => .error (.productUnavailable ci.product)
    | some p =>
      if !p.isActive then .error (.productUnavailable ci.product)
      else
        match p.skus.find? (fun k => k.sku == ci.sku) with
        | none => .error (.insufficientStock p.name ci.sku)
        | some sku =>
          if sku.stock < (ci.quantity : Int) then
            .error (.insufficientStock p.name ci.sku)
          else
            match buildOrderItems catalog rest with
            | .error e => .error e
            | .ok (items, sub) =>
              .ok ({ product := ci.product, sku := ci.sku, productName := p.name,
                     size := sku.size, color := sku.color, quantity := ci.quantity,
                     price := sku.price, weight := sku.weight,
                     image := jsOr (sku.images.headD "") (jsOr (p.images.headD "") "") }
                    :: items,
                   sku.price * (ci.quantity : ℚ) + sub)

/-- The stock-update loop of checkout (lines 963–969): one unconditional
`$inc` of `-quantity` per order item. -/
def decrementAll (catalog : List Product) (items : List OrderItem) : List Product :=
  items.foldl (fun c i => updateOneInc c i.product i.sku (-(i.quantity : Int))) catalog

/-- The stock-restore loop of cancelOrder (lines 1326–1332): one
unconditional `$inc` of `+quantity` per order item. -/
def restoreStock (catalog : List Product) (items : List OrderItem) : List Product :=
  items.foldl (fun c i => updateOneInc c i.product i.sku (i.quantity : Int)) catalog

/-- `Cart.findOneAndUpdate({user}, {$set: {items: []}})`. -/
def clearCart : List Cart → Nat → List Cart
  | [], _ => []
  | c :: cs, uid => if c.user == uid then { c with items := [] } :: cs else c :: clearCart cs uid

/-- Shipping-cost selection in checkout (lines 923–940): a method of the
form `COURIER:SERVICE` consults the external ShippingService (modelled by
the `shippingOption` parameter); `selectedShippingOption?.cost ||
calculateShippingCost(...)` falls back when the option is absent or its
cost is 0 (JS falsiness). -/
def resolveShippingCost (shippingMethod : String) (shippingOption : Option ℚ)
    (items : List OrderItem) : ℚ :=
  if shippingMethod.contains ':' then
    match shippingOption with
    | some c => if c = 0 then calculateShippingCost shippingMethod items else c
    | none => calculateShippingCost shippingMethod items
  else calculateShippingCost shippingMethod items

/-- Mongoose schema validation run by `order.save()` (Order.ts):
`shippingMethod: { type: String, required: true }`, and Mongoose's
`required` check on a String path rejects the empty string, so an order
with `shippingMethod = ""` fails validation and the save throws.  The
schema's remaining validators (the `paymentMethod` enum, per-item
`min` bounds, required snapshot fields) concern fields none of the
properties proved here varies, and are not modelled. -/
def orderSaveValidates (o : Order) : Bool :=
  !(o.shippingMethod == "")

/-- `checkout` (healthController lines 836–1007): load the cart, fail on
empty, validate lines and build snapshots, price the order, persist it
with status `pending` / paymentStatus `pending` (a schema-validation
failure at `order.save()` throws to the catch before any stock write),
then decrement stock and clear the cart.  The geocoding and shipping
external services are abstracted by the `shippingOption` parameter; the
notification call cannot affect the result (its errors are swallowed). -/
def checkout (s : St) (userId : Nat) (shippingAddress shippingMethod paymentMethod : String)
    (notes : Option String) (shippingOption : Option ℚ) :
    Except CheckoutError Order × St :=
  match s.carts.find? (fun c => c.user == userId) with
  | none => (.error .emptyCart, s)
  | some cart =>
    if cart.items.isEmpty then (.error .emptyCart, s)
    else
      match buildOrderItems s.catalog cart.items with
      | .error e => (.error e, s)
      | .ok (orderItems, subtotal) =>
        let shippingCost := resolveShippingCost shippingMethod shippingOption orderItems
        let taxAmount : ℚ := 0
        let discountAmount : ℚ := 0
        let totalAmount := subtotal + shippingCost + taxAmount - discountAmount
        let order : Order :=
          { id := s.nextOrderId, user := userId, items := orderItems,
            subtotal := subtotal, shippingCost := shippingCost,
            taxAmount := taxAmount, discountAmount := discountAmount,
            totalAmount := totalAmount, shippingAddress := shippingAddress,
            shippingMethod := shippingMethod, paymentMethod := paymentMethod,
            status := .pending, paymentStatus := .pending,
            trackingNumber := none, estimatedDelivery := none, paymentId := none,
            paidAt := false, notes := notes, cancelReason := none }
        if orderSaveValidates order then
          (.ok order,
           { catalog := decrementAll s.catalog orderItems,
             carts := clearCart s.carts userId,
             orders := s.orders ++ [order],
             nextOrderId := s.nextOrderId + 1 })
        else
          (.error .validationFailed, s)

/-- Fault-injected run of `checkout`: the store throws on the `(k+1)`-th
`Product.updateOne` of the stock-update loop (after the order was already
saved), and control transfers to the surrounding `catch` (lines 998–1006),
which only logs and returns a 500 — it performs no compensating writes,
does not delete the saved order and does not clear the cart. -/
def checkoutDecrementFailure (s : St) (userId : Nat)
    (shippingAddress shippingMethod paymentMethod : String)
    (notes : Option String) (shippingOption : Option ℚ) (k : Nat) :
    Except CheckoutError Order × St :=
  match s.carts.find? (fun c => c.user == userId) with
  | none => (.error .emptyCart, s)
  | some cart =>
    if cart.items.isEmpty then (.error .emptyCart, s)
    else
      match buildOrderItems s.catalog cart.items with
      | .error e => (.error e, s)
      | .ok (orderItems, subtotal) =>
        let shippingCost := resolveShippingCost shippingMethod shippingOption orderItems
        let taxAmount : ℚ := 0
        let discountAmount : ℚ := 0
        let totalAmount := subtotal + shippingCost + taxAmount - discountAmount
        let order : Order :=
          { id := s.nextOrderId, user := userId, items := orderItems,
            subtotal := subtotal, shippingCost := shippingCost,
            taxAmount := taxAmount, discountAmount := discountAmount,
            totalAmount := totalAmount, shippingAddress := shippingAddress,
            shippingMethod := shippingMethod, paymentMethod := paymentMethod,
            status := .pending, paymentStatus := .pending,
            trackingNumber := none, estimatedDelivery := none, paymentId := none,
            paidAt := false, notes := notes, cancelReason := none }
        if orderSaveValidates order then
          (.error .persistence,
           { catalog := decrementAll s.catalog (orderItems.take k),
             carts := s.carts,
             orders := s.orders ++ [order],
             nextOrderId := s.nextOrderId + 1 })
        else
          (.error .validationFailed, s)

/-- Interleaved run of two concurrent `checkout` calls in which the
validation pass (lines 871–906) of both requests executes before either
stock-update loop (lines 963–969) — possible because the two phases are
separate awaited queries with no lock or conditional update between them.
Each call that passes validation saves its order and applies its
unconditional decrements; returns which calls succeeded and the final
catalog. -/
def twoCheckoutsValidateFirst (catalog : List Product) (items1 items2 : List CartItem) :
    (Bool × Bool) × List Product :=
  match buildOrderItems catalog items1, buildOrderItems catalog items2 with
  | .ok (i1, _), .ok (i2, _) => ((true, true), decrementAll (decrementAll catalog i1) i2)
  | .ok (i1, _), .error _ => ((true, false), decrementAll catalog i1)
  | .error _, .ok (i2, _) => ((false, true), decrementAll catalog i2)
  | .error _, .error _ => ((false, false), catalog)

/-- `getOrderById` (lines 1261–1296): owner-scoped read, 404 when no
order matches both the id and the calling user; performs no writes. -/
def getOrderById (s : St) (userId orderId : Nat) : Except OrderError Order :=
  match findOrderByIdAndUser s.orders orderId userId with
  | none => .error .orderNotFound
  | some o => .ok o

/-- `cancelOrder` (lines 1299–1368): owner-scoped lookup, status guard
`['pending','confirmed']`, stock-restore loop, then save with status
`cancelled`. -/
def cancelOrder (s : St) (userId orderId : Nat) (cancelReason : Option String) :
    Except OrderError Order × St :=
  match findOrderByIdAndUser s.orders orderId userId with
  | none => (.error .orderNotFound, s)
  | some o =>
    if o.status = .pending ∨ o.status = .confirmed then
      let o' := { o with status := .cancelled, cancelReason := cancelReason }
      (.ok o',
       { s with catalog := restoreStock s.catalog o.items,
                orders := saveOrder s.orders o' })
    else
      (.error .invalidOrderState, s)

/-- `updateOrderStatus` (admin, lines 1445–1499): fetch by id, assign the
requested status with NO transition check, optionally set tracking
number / estimated delivery, save. -/
def updateOrderStatus (s : St) (orderId : Nat) (status : OrderStatus)
    (trackingNumber estimatedDelivery : Option String) :
    Except OrderError Order × St :=
  match findOrderById s.orders orderId with
  | none => (.error .orderNotFound, s)
  | some o =>
    let o' := { o with status := status,
                       trackingNumber := jsOrSet trackingNumber o.trackingNumber,
                       estimatedDelivery := jsOrSet estimatedDelivery o.estimatedDelivery }
    (.ok o', { s with orders := saveOrder s.orders o' })

/-- `updatePaymentStatus` (admin, lines 1502–1571): fetch by id, assign
the requested payment status, and when it is `paid` set `paidAt` and
auto-advance the fulfillment status `pending → confirmed`. -/
def updatePaymentStatus (s : St) (orderId : Nat) (paymentStatus : PaymentStatus)
    (paymentId : Option String) : Except OrderError Order × St :=
  match findOrderById s.orders orderId with
  | none => (.error .orderNotFound, s)
  | some o =>
    let o1 := { o with paymentStatus := paymentStatus,
                       paymentId := jsOrSet paymentId o.paymentId }
    let o2 :=
      if paymentStatus = .paid then
        { o1 with paidAt := true,
                  status := if o1.status = .pending then .confirmed else o1.status }
      else o1
    (.ok o2, { s with orders := saveOrder s.orders o2 })

/-- Reference shipping-cost formula as §6 of the spec words it: a pure
function of the method and the total weight in grams. -/
def shippingCostSpec (method : String) (totalWeightGrams : ℚ) : ℚ :=
  if method = "regular" then max 15000 (totalWeightGrams * (1 / 100))
  else if method = "express" then max 25000 (totalWeightGrams * (2 / 100))
  else if method = "same_day" then max 50000 (totalWeightGrams * (3 / 100))
  else 15000

/-- Total weight of a list of order items, as a clean sum. -/
def totalWeightOf (items : List OrderItem) : ℚ :=
  (items.map (fun i => i.weight * (i.quantity : ℚ))).sum

/-! ## Concrete fixtures used by witnesses and counterexamples -/

/-- A 1500150-gram order item: heavy enough that `weight * 0.01` exceeds
the 15000 minimum and is not an integer. -/
def heavyItem : OrderItem :=
  { product := 1, sku := "SKU-X", productName := "X", size := "M", color := "black",
    quantity := 1, price := 0, weight := 1500150, image := "" }

/-- Catalog product with SKU "SKU-A", stock 5. -/
def prodA : Product :=
  { id := 1, name := "Product A", isActive := true, images := ["imgA"],
    skus := [{ sku := "SKU-A", size := "M", color := "black", stock := 5,
               price := 100, weight := 100, images := [], isActive := true }] }

/-- Catalog product with SKU "SKU-B", stock 5. -/
def prodB : Product :=
  { id := 2, name := "Product B", isActive := true, images := ["imgB"],
    skus := [{ sku := "SKU-B", size := "L", color := "white", stock := 5,
               price := 200, weight := 250, images := [], isActive := true }] }

/-- Catalog product with SKU "SKU-C", stock 1 (the last unit). -/
def prodC : Product :=
  { id := 3, name := "Product C", isActive := true, images := [],
    skus := [{ sku := "SKU-C", size := "S", color := "red", stock := 1,
               price := 50, weight := 100, images := [], isActive := true }] }

/-- A pending order owned by user 7 with one unit of SKU-A. -/
def pendingOrder : Order :=
  { id := 1, user := 7,
    items := [{ product := 1, sku := "SKU-A", productName := "Product A", size := "M",
                color := "black", quantity := 1, price := 100, weight := 100, image := "imgA" }],
    subtotal := 100, shippingCost := 15000, taxAmount := 0, discountAmount := 0,
    totalAmount := 15100, shippingAddress := "addr", shippingMethod := "regular",
    paymentMethod := "cod", status := .pending, paymentStatus := .pending,
    trackingNumber := none, estimatedDelivery := none, paymentId := none,
    paidAt := false, notes := none, cancelReason := none }

/-- Store for the admin status-update scenario: one pending order. -/
def stC2 : St := { catalog := [prodA], carts := [], orders := [pendingOrder], nextOrderId := 2 }

/-- Store for the mid-decrement-failure scenario: user 9's cart holds
1× SKU-A and 1× SKU-B, both in stock. -/
def stC1 : St :=
  { catalog := [prodA, prodB],
    carts := [{ user := 9,
                items := [{ product := 1, sku := "SKU-A", quantity := 1, price := 100 },
                          { product := 2, sku := "SKU-B", quantity := 1, price := 200 }] }],
    orders := [], nextOrderId := 50 }

/-- Checkout of `stC1` where the store fails at the second `updateOne` of
the stock-update loop (after the first decrement was applied). -/
def rC1 : Except CheckoutError Order × St :=
  checkoutDecrementFailure stC1 9 "addr" "regular" "cod" none none 1

/-- Two racing checkouts each requesting the last unit of SKU-C, with
both validation passes scheduled before either decrement loop. -/
def raceC3 : (Bool × Bool) × List Product :=
  twoCheckoutsValidateFirst [prodC]
    [{ product := 3, sku := "SKU-C", quantity := 1, price := 50 }]
    [{ product := 3, sku := "SKU-C", quantity := 1, price := 50 }]

/-- Catalog product with SKU "SKU-B0", stock 0 (sold out). -/
def prodB0 : Product :=
  { id := 5, name := "Product B0", isActive := true, images := [],
    skus := [{ sku := "SKU-B0", size := "S", color := "grey", stock := 0,
               price := 10, weight := 100, images := [], isActive := true }] }

/-- Store for the insufficient-stock scenario: user 2's cart holds
2× SKU-A (stock 5) and 1× SKU-B0 (stock 0). -/
def stC4 : St :=
  { catalog := [prodA, prodB0],
    carts := [{ user := 2,
                items := [{ product := 1, sku := "SKU-A", quantity := 2, price := 100 },
                          { product := 5, sku := "SKU-B0", quantity := 1, price := 10 }] }],
    orders := [], nextOrderId := 9 }

/-- Catalog product with SKU "SKU-E", price 299000, weight 500 g. -/
def prodE : Product :=
  { id := 4, name := "Product E", isActive := true, images := ["imgE"],
    skus := [{ sku := "SKU-E", size := "M", color := "navy", stock := 10,
               price := 299000, weight := 500, images := [], isActive := true }] }

/-- Store for the pricing scenario: user 1's cart holds 2× SKU-E. -/
def stC5 : St :=
  { catalog := [prodE],
    carts := [{ user := 1,
                items := [{ product := 4, sku := "SKU-E", quantity := 2, price := 299000 }] }],
    orders := [], nextOrderId := 1 }

/-- The order the pricing-scenario checkout creates: subtotal 598000,
shipping 15000, total 613000. -/
def oC5 : Order :=
  { id := 1, user := 1,
    items := [{ product := 4, sku := "SKU-E", productName := "Product E", size := "M",
                color := "navy", quantity := 2, price := 299000, weight := 500,
                image := "imgE" }],
    subtotal := 598000, shippingCost := 15000, taxAmount := 0, discountAmount := 0,
    totalAmount := 613000, shippingAddress := "addr", shippingMethod := "regular",
    paymentMethod := "cod", status := .pending, paymentStatus := .pending,
    trackingNumber := none, estimatedDelivery := none, paymentId := none,
    paidAt := false, notes := none, cancelReason := none }

/-- The pricing-scenario checkout call. -/
def rC5 : Except CheckoutError Order × St :=
  checkout stC5 1 "addr" "regular" "cod" none none

/-- Catalog product with SKU "SKU-D", stock 3. -/
def prodD : Product :=
  { id := 6, name := "Product D", isActive := true, images := [],
    skus := [{ sku := "SKU-D", size := "M", color := "green", stock := 3,
               price := 70, weight := 100, images := [], isActive := true }] }

/-- A confirmed order of user 4 with 2× SKU-D. -/
def confirmedOrderD : Order :=
  { id := 11, user := 4,
    items := [{ product := 6, sku := "SKU-D", productName := "Product D", size := "M",
                color := "green", quantity := 2, price := 70, weight := 100, image := "" }],
    subtotal := 140, shippingCost := 15000, taxAmount := 0, discountAmount := 0,
    totalAmount := 15140, shippingAddress := "addr", shippingMethod := "regular",
    paymentMethod := "cod", status := .confirmed, paymentStatus := .paid,
    trackingNumber := none, estimatedDelivery := none, paymentId := none,
    paidAt := true, notes := none, cancelReason := none }

/-- Store for the cancellation scenario. -/
def stC6 : St := { catalog := [prodD], carts := [], orders := [confirmedOrderD], nextOrderId := 12 }

/-- Whether a checkout call responded 201 (`.ok`) rather than an error. -/
def isOkResult (r : Except CheckoutError Order) : Bool :=
  match r with
  | .ok _ => true
  | .error _ => false

/-- Fulfillment status of the order returned by an order operation. -/
def statusOf (r : Except OrderError Order) : Option OrderStatus :=
  match r with
  | .ok o => some o.status
  | .error _ => none

/-- Payment status of the order returned by an order operation. -/
def paymentStatusOf (r : Except OrderError Order) : Option PaymentStatus :=
  match r with
  | .ok o => some o.paymentStatus
  | .error _ => none

/-! ## Helper lemmas -/

theorem foldl_add_weight (l : List OrderItem) (a : ℚ) :
    l.foldl (fun t i => t + i.weight * (i.quantity : ℚ)) a = a + totalWeightOf l := by
  induction l generalizing a with
  | nil => simp [totalWeightOf]
  | cons x xs ih =>
    simp only [List.foldl_cons, ih, totalWeightOf, List.map_cons, List.sum_cons]
    ring

/-! ## Claims -/

/-- C8 (amended): `calculateShippingCost` is a pure function of the
shipping method and the total weight in grams (the sum over items of
weight × quantity), equal to `max(15000, w·0.01)` for `regular`,
`max(25000, w·0.02)` for `express` and `max(50000, w·0.03)` for
`same_day` — as a rational number, not always an integer. -/
theorem shippingCost_pure_in_method_and_weight (method : String) (items : List OrderItem) :
    calculateShippingCost method items = shippingCostSpec method (totalWeightOf items) := by
  simp only [calculateShippingCost, shippingCostSpec, foldl_add_weight, zero_add]

/-- C8 counterexample: at total weight 1500150 g, the `regular` cost is
15001.5, which is not an integer — refuting the "integer cost" part of
the claim at a concrete input. -/
theorem shippingCost_not_integer_at_1500150g :
    calculateShippingCost "regular" [heavyItem] = 30003 / 2 ∧
    (calculateShippingCost "regular" [heavyItem]).den ≠ 1 := by
  constructor
  · simp [calculateShippingCost, heavyItem]
    norm_num
  · simp [calculateShippingCost, heavyItem]
    norm_num

/-- C9 counterexample: with the same cart that checks out successfully
under the unknown method `"standard"`, checkout under the empty shipping
method is rejected — `order.save()` fails the schema's required-String
check on `shippingMethod` and the call returns the 500 with no state
change — even though the fallback cost function itself maps `""` to
15000.  This refutes "including the empty string … Checkout never
rejects an order because of an unknown shipping method". -/
theorem empty_method_checkout_rejected :
    (checkout stC5 1 "addr" "" "cod" none none).1 = .error .validationFailed ∧
    (checkout stC5 1 "addr" "" "cod" none none).2 = stC5 ∧
    isOkResult (checkout stC5 1 "addr" "standard" "cod" none none).1 = true ∧
    calculateShippingCost "" [heavyItem] = 15000 :=
  ⟨rfl, rfl, rfl, rfl⟩

/-- C9 (amended): for every shipping method other than `regular`,
`express` and `same_day`, the fallback `calculateShippingCost` returns
exactly 15000 regardless of the items; and for every such method other
than the empty string — which the Order schema's required-String
validator rejects at `order.save()` — whether a checkout call succeeds
does not depend on the shipping method. -/
theorem unknown_nonempty_method_flat_cost (method : String)
    (hr : method ≠ "regular") (he : method ≠ "express") (hs : method ≠ "same_day") :
    (∀ items, calculateShippingCost method items = 15000) ∧
    (method ≠ "" → ∀ s uid addr pay notes opt,
      isOkResult (checkout s uid addr method pay notes opt).1
        = isOkResult (checkout s uid addr "regular" pay notes opt).1) := by
  constructor
  · intro items
    simp [calculateShippingCost, hr, he, hs]
  · intro hne s uid addr pay notes opt
    have hb1 : (method == "") = false := by simp [hne]
    have hb2 : (("regular" : String) == "") = false := by decide
    cases hc : s.carts.find? (fun c => c.user == uid) with
    | none => simp [checkout, hc]
    | some cart =>
      by_cases hemp : cart.items.isEmpty
      · simp [checkout, hc, hemp]
      · cases hb : buildOrderItems s.catalog cart.items with
        | error e => simp [checkout, hc, hemp, hb, isOkResult]
        | ok pr =>
          obtain ⟨oi, sub⟩ := pr
          simp [checkout, hc, hemp, hb, isOkResult, orderSaveValidates, hb1, hb2]

/-- C9 witness: the unrecognized method `"standard"` costs a flat 15000
and succeeds exactly when `"regular"` does. -/
theorem unknown_nonempty_method_flat_cost_witness :
    calculateShippingCost "standard" [heavyItem] = 15000 ∧
    isOkResult (checkout stC5 1 "addr" "standard" "cod" none none).1
      = isOkResult (checkout stC5 1 "addr" "regular" "cod" none none).1 :=
  ⟨(unknown_nonempty_method_flat_cost "standard" (by decide) (by decide) (by decide)).1
      [heavyItem],
   (unknown_nonempty_method_flat_cost "standard" (by decide) (by decide) (by decide)).2
      (by decide) stC5 1 "addr" "cod" none none⟩

/-- C2 (code evaluation): the admin status update performs no transition
validation — updating a `pending` order directly to `delivered` is
accepted and persisted, where the claim demands `InvalidOrderStateError`
and an unchanged status. -/
theorem admin_update_accepts_pending_to_delivered :
    (updateOrderStatus stC2 1 .delivered none none).1
        = .ok { pendingOrder with status := .delivered } ∧
    (updateOrderStatus stC2 1 .delivered none none).2.orders
        = [{ pendingOrder with status := .delivered }] :=
  ⟨rfl, rfl⟩

/-- C7: when the admin payment update sets `paymentStatus` to `paid`,
the fulfillment status auto-advances to `confirmed` exactly when it was
still `pending`, and is left unchanged otherwise; payment updates with
any other payment status never touch the fulfillment status. -/
theorem paid_autoconfirms_iff_pending (s : St) (oid : Nat) (pid : Option String) (o : Order)
    (h : findOrderById s.orders oid = some o) :
    statusOf (updatePaymentStatus s oid .paid pid).1
        = some (if o.status = .pending then .confirmed else o.status) ∧
    paymentStatusOf (updatePaymentStatus s oid .paid pid).1 = some .paid ∧
    (∀ ps : PaymentStatus, ps ≠ .paid →
      statusOf (updatePaymentStatus s oid ps pid).1 = some o.status) := by
  refine ⟨?_, ?_, ?_⟩
  · simp [updatePaymentStatus, h, statusOf]
  · simp [updatePaymentStatus, h, paymentStatusOf]
  · intro ps hps
    simp [updatePaymentStatus, h, hps, statusOf]

/-- C7 witness: paying the pending order of `stC2` advances it to
`confirmed`. -/
theorem paid_autoconfirms_iff_pending_witness :
    statusOf (updatePaymentStatus stC2 1 .paid none).1
        = some (if pendingOrder.status = .pending then .confirmed else pendingOrder.status) ∧
    paymentStatusOf (updatePaymentStatus stC2 1 .paid none).1 = some .paid ∧
    (∀ ps : PaymentStatus, ps ≠ .paid →
      statusOf (updatePaymentStatus stC2 1 ps none).1 = some pendingOrder.status) :=
  paid_autoconfirms_iff_pending stC2 1 none pendingOrder rfl

/-- C10: order retrieval and cancellation are owner-scoped — when every
order carrying the requested id belongs to a different user, both return
Order-not-found and cancellation mutates nothing. -/
theorem order_read_cancel_owner_scoped (s : St) (uid oid : Nat) (reason : Option String)
    (h : ∀ o ∈ s.orders, o.id = oid → o.user ≠ uid) :
    getOrderById s uid oid = .error .orderNotFound ∧
    cancelOrder s uid oid reason = (.error .orderNotFound, s) := by
  have hnone : findOrderByIdAndUser s.orders oid uid = none := by
    simp only [findOrderByIdAndUser, List.find?_eq_none, Bool.and_eq_true, beq_iff_eq,
      not_and]
    exact fun o ho hid => h o ho hid
  exact ⟨by simp [getOrderById, hnone], by simp [cancelOrder, hnone]⟩

/-- C10 witness: user 3 can neither read nor cancel user 7's order. -/
theorem order_read_cancel_owner_scoped_witness :
    getOrderById stC2 3 1 = .error .orderNotFound ∧
    cancelOrder stC2 3 1 none = (.error .orderNotFound, stC2) :=
  order_read_cancel_owner_scoped stC2 3 1 none (by decide)

/-- C1 (code evaluation): when the store fails at the second stock
decrement of a two-line checkout, the call errors but the already-applied
decrement of SKU-A is never compensated, the order stays persisted with
both items, and the cart is not cleared — the claimed
"decremented ⇔ order exists" restoration does not happen. -/
theorem checkout_failure_leaves_uncompensated_decrement :
    rC1.1 = .error .persistence ∧
    rC1.2.orders.map (fun o => (o.id, o.items.map OrderItem.sku))
        = [(50, ["SKU-A", "SKU-B"])] ∧
    lookupStock rC1.2.catalog 1 "SKU-A" = some 4 ∧
    lookupStock rC1.2.catalog 2 "SKU-B" = some 5 ∧
    rC1.2.carts = stC1.carts :=
  ⟨rfl, rfl, rfl, rfl, rfl⟩

/-- C3 (code evaluation): two checkouts racing on the last unit of SKU-C
can both pass the (non-atomic) validation read before either unconditional
`$inc` runs; both calls then succeed and the final stock is −1, where the
claim demands exactly one success and final stock 0. -/
theorem concurrent_checkouts_oversell_last_unit :
    raceC3.1 = (true, true) ∧ lookupStock raceC3.2 3 "SKU-C" = some (-1) :=
  ⟨rfl, rfl⟩

theorem buildOrderItems_subtotal (catalog : List Product) :
    ∀ (cis : List CartItem) (items : List OrderItem) (sub : ℚ),
      buildOrderItems catalog cis = .ok (items, sub) →
      sub = (items.map (fun i => i.price * (i.quantity : ℚ))).sum := by
  intro cis
  induction cis with
  | nil =>
    intro items sub h
    simp only [buildOrderItems, Except.ok.injEq, Prod.mk.injEq] at h
    obtain ⟨h1, h2⟩ := h
    simp [← h1, ← h2]
  | cons ci rest ih =>
    intro items sub h
    cases hp : findProduct catalog ci.product with
    | none => simp [buildOrderItems, hp] at h
    | some p =>
      by_cases hact : p.isActive
      · cases hk : p.skus.find? (fun x => x.sku == ci.sku) with
        | none => simp [buildOrderItems, hp, hk, hact] at h
        | some sku =>
          by_cases hst : sku.stock < (ci.quantity : Int)
          · simp [buildOrderItems, hp, hk, hact, hst] at h
          · cases hr : buildOrderItems catalog rest with
            | error e => simp [buildOrderItems, hp, hk, hact, hst, hr] at h
            | ok pr =>
              obtain ⟨items', sub'⟩ := pr
              simp only [buildOrderItems, hp, hk, hact, hst, hr, Bool.not_true,
                Bool.false_eq_true, if_false, if_neg hst, Except.ok.injEq,
                Prod.mk.injEq] at h
              obtain ⟨h1, h2⟩ := h
              subst h1
              subst h2
              simp only [List.map_cons, List.sum_cons]
              rw [ih items' sub' hr]
      · simp [buildOrderItems, hp, hact] at h

theorem buildOrderItems_price_from_catalog (catalog : List Product) :
    ∀ (cis : List CartItem) (items : List OrderItem) (sub : ℚ),
      buildOrderItems catalog cis = .ok (items, sub) →
      ∀ i ∈ items, ∃ p k, findProduct catalog i.product = some p ∧
        p.skus.find? (fun x => x.sku == i.sku) = some k ∧ i.price = k.price := by
  intro cis
  induction cis with
  | nil =>
    intro items sub h
    simp only [buildOrderItems, Except.ok.injEq, Prod.mk.injEq] at h
    obtain ⟨h1, h2⟩ := h
    intro i hi
    rw [← h1] at hi
    cases hi
  | cons ci rest ih =>
    intro items sub h
    cases hp : findProduct catalog ci.product with
    | none => simp [buildOrderItems, hp] at h
    | some p =>
      by_cases hact : p.isActive
      · cases hk : p.skus.find? (fun x => x.sku == ci.sku) with
        | none => simp [buildOrderItems, hp, hk, hact] at h
        | some sku =>
          by_cases hst : sku.stock < (ci.quantity : Int)
          · simp [buildOrderItems, hp, hk, hact, hst] at h
          · cases hr : buildOrderItems catalog rest with
            | error e => simp [buildOrderItems, hp, hk, hact, hst, hr] at h
            | ok pr =>
              obtain ⟨items', sub'⟩ := pr
              simp only [buildOrderItems, hp, hk, hact, hst, hr, Bool.not_true,
                Bool.false_eq_true, if_false, if_neg hst, Except.ok.injEq,
                Prod.mk.injEq] at h
              obtain ⟨h1, h2⟩ := h
              subst h1
              intro i hi
              rcases List.mem_cons.mp hi with rfl | hi'
              · exact ⟨p, sku, hp, hk, rfl⟩
              · exact ih items' sub' hr i hi'
      · simp [buildOrderItems, hp, hact] at h

/-- C5: every order created by checkout satisfies
`totalAmount = subtotal + shippingCost + taxAmount − discountAmount` with
`taxAmount = discountAmount = 0`, and `subtotal = Σ price × quantity`
over its items, where each item's price is the SKU price re-read from the
catalog at checkout time. -/
theorem order_total_arithmetic (s : St) (uid : Nat) (addr method pay : String)
    (notes : Option String) (opt : Option ℚ) (order : Order)
    (h : (checkout s uid addr method pay notes opt).1 = .ok order) :
    order.totalAmount
        = order.subtotal + order.shippingCost + order.taxAmount - order.discountAmount ∧
    order.taxAmount = 0 ∧ order.discountAmount = 0 ∧
    order.subtotal = (order.items.map (fun i => i.price * (i.quantity : ℚ))).sum ∧
    ∀ i ∈ order.items, ∃ p k, findProduct s.catalog i.product = some p ∧
        p.skus.find? (fun x => x.sku == i.sku) = some k ∧ i.price = k.price := by
  cases hc : s.carts.find? (fun c => c.user == uid) with
  | none => simp [checkout, hc] at h
  | some cart =>
    by_cases hemp : cart.items.isEmpty
    · simp [checkout, hc, hemp] at h
    · cases hb : buildOrderItems s.catalog cart.items with
      | error e => simp [checkout, hc, hemp, hb] at h
      | ok pr =>
        obtain ⟨oi, sub⟩ := pr
        cases hv : (method == "") with
        | true => simp [checkout, hc, hemp, hb, orderSaveValidates, hv] at h
        | false =>
          simp only [checkout, hc, hemp, hb, orderSaveValidates, hv, Bool.not_false,
            if_true, if_false, Bool.false_eq_true, Except.ok.injEq] at h
          subst h
          refine ⟨rfl, rfl, rfl, ?_, ?_⟩
          · exact buildOrderItems_subtotal s.catalog cart.items oi sub hb
          · exact buildOrderItems_price_from_catalog s.catalog cart.items oi sub hb

/-- C5 witness: checkout of 2× SKU-E (price 299000, weight 500 g) with
method `regular` yields subtotal 598000, shipping 15000, total 613000. -/
theorem order_total_arithmetic_witness :
    (oC5.totalAmount
        = oC5.subtotal + oC5.shippingCost + oC5.taxAmount - oC5.discountAmount ∧
     oC5.taxAmount = 0 ∧ oC5.discountAmount = 0 ∧
     oC5.subtotal = (oC5.items.map (fun i => i.price * (i.quantity : ℚ))).sum ∧
     ∀ i ∈ oC5.items, ∃ p k, findProduct stC5.catalog i.product = some p ∧
        p.skus.find? (fun x => x.sku == i.sku) = some k ∧ i.price = k.price) ∧
    oC5.subtotal = 598000 ∧ oC5.shippingCost = 15000 ∧ oC5.totalAmount = 613000 :=
  ⟨order_total_arithmetic stC5 1 "addr" "regular" "cod" none none oC5
    (by
      have h1 : ¬ ("regular" = "") := by decide
      have h2 : ¬ ("imgE" = "") := by decide
      norm_num [checkout, stC5, prodE, oC5, findProduct, buildOrderItems,
        resolveShippingCost, calculateShippingCost, orderSaveValidates, jsOr,
        List.find?, h1, h2]),
   by norm_num [oC5], by norm_num [oC5], by norm_num [oC5]⟩

theorem buildOrderItems_insufficient (catalog : List Product) :
    ∀ (cis : List CartItem),
      (∀ ci ∈ cis, ∃ p, findProduct catalog ci.product = some p ∧ p.isActive = true) →
      (∃ ci ∈ cis, ∃ p k, findProduct catalog ci.product = some p ∧
        p.skus.find? (fun x => x.sku == ci.sku) = some k ∧ k.stock < (ci.quantity : Int)) →
      ∃ name sk, buildOrderItems catalog cis = .error (.insufficientStock name sk) := by
  intro cis
  induction cis with
  | nil =>
    intro _ hbad
    obtain ⟨ci, hci, _⟩ := hbad
    cases hci
  | cons ci rest ih =>
    intro hactive hbad
    obtain ⟨p, hp, hact⟩ := hactive ci (List.mem_cons_self ci rest)
    cases hk : p.skus.find? (fun x => x.sku == ci.sku) with
    | none =>
      exact ⟨p.name, ci.sku, by simp [buildOrderItems, hp, hact, hk]⟩
    | some k =>
      by_cases hst : k.stock < (ci.quantity : Int)
      · exact ⟨p.name, ci.sku, by simp [buildOrderItems, hp, hact, hk, hst]⟩
      · obtain ⟨ci', hci', p', k', hp', hk', hst'⟩ := hbad
        rcases List.mem_cons.mp hci' with rfl | hmem
        · obtain rfl : p' = p := Option.some.inj (hp'.symm.trans hp)
          obtain rfl : k' = k := Option.some.inj (hk'.symm.trans hk)
          exact absurd hst' hst
        · obtain ⟨n, sk, herr⟩ :=
            ih (fun x hx => hactive x (List.mem_cons_of_mem ci hx))
               ⟨ci', hmem, p', k', hp', hk', hst'⟩
          exact ⟨n, sk, by simp [buildOrderItems, hp, hact, hk, hst, herr]⟩

/-- C4: when every cart line references an existing active product and
some line requests more than its SKU's current stock (or its SKU is
gone), checkout fails with `InsufficientStockError` naming a product and
SKU, and the store — in particular every SKU's stock — is completely
unchanged. -/
theorem insufficient_stock_rejected_without_mutation
    (s : St) (uid : Nat) (addr method pay : String) (notes : Option String) (opt : Option ℚ)
    (cart : Cart)
    (hcart : s.carts.find? (fun c => c.user == uid) = some cart)
    (hactive : ∀ ci ∈ cart.items,
      ∃ p, findProduct s.catalog ci.product = some p ∧ p.isActive = true)
    (hbad : ∃ ci ∈ cart.items, ∃ p k, findProduct s.catalog ci.product = some p ∧
        p.skus.find? (fun x => x.sku == ci.sku) = some k ∧ k.stock < (ci.quantity : Int)) :
    ∃ name sk, checkout s uid addr method pay notes opt
        = (.error (.insufficientStock name sk), s) := by
  obtain ⟨n, sk, herr⟩ := buildOrderItems_insufficient s.catalog cart.items hactive hbad
  refine ⟨n, sk, ?_⟩
  have hemp : cart.items.isEmpty = false := by
    obtain ⟨ci, hci, _⟩ := hbad
    cases hitems : cart.items with
    | nil => rw [hitems] at hci; cases hci
    | cons a l => rfl
  simp [checkout, hcart, hemp, herr]

/-- C4 witness: with 2× SKU-A (stock 5) and 1× SKU-B0 (stock 0) in the
cart, checkout fails with `InsufficientStockError` for Product B0 /
SKU-B0, the store is returned unchanged, and SKU-A's stock is still 5. -/
theorem insufficient_stock_rejected_without_mutation_witness :
    (∃ name sk, checkout stC4 2 "addr" "regular" "cod" none none
        = (.error (.insufficientStock name sk), stC4)) ∧
    (checkout stC4 2 "addr" "regular" "cod" none none).1
        = .error (.insufficientStock "Product B0" "SKU-B0") ∧
    lookupStock stC4.catalog 1 "SKU-A" = some 5 :=
  ⟨insufficient_stock_rejected_without_mutation stC4 2 "addr" "regular" "cod" none none
      { user := 2,
        items := [{ product := 1, sku := "SKU-A", quantity := 2, price := 100 },
                  { product := 5, sku := "SKU-B0", quantity := 1, price := 10 }] }
      rfl
      (by
        intro ci hci
        rcases List.mem_cons.mp hci with rfl | hci2
        · exact ⟨prodA, rfl, rfl⟩
        · rcases List.mem_cons.mp hci2 with rfl | hci3
          · exact ⟨prodB0, rfl, rfl⟩
          · cases hci3)
      (by
        refine ⟨{ product := 5, sku := "SKU-B0", quantity := 1, price := 10 },
          List.mem_cons_of_mem _ (List.mem_cons_self _ _), prodB0,
          { sku := "SKU-B0", size := "S", color := "grey", stock := 0,
            price := 10, weight := 100, images := [], isActive := true },
          rfl, rfl, by decide⟩),
   rfl, rfl⟩

theorem incFirstSku_any (ks : List SKU) (sk : String) (d : Int) (s' : String) :
    (incFirstSku ks sk d).any (fun k => k.sku == s') = ks.any (fun k => k.sku == s') := by
  induction ks with
  | nil => rfl
  | cons k ks ih =>
    by_cases h : k.sku = sk
    · simp [incFirstSku, h]
    · simp [incFirstSku, h, ih]

theorem incFirstSku_find_hit (ks : List SKU) (sk : String) (d : Int) :
    (incFirstSku ks sk d).find? (fun k => k.sku == sk)
      = (ks.find? (fun k => k.sku == sk)).map (fun k => { k with stock := k.stock + d }) := by
  induction ks with
  | nil => rfl
  | cons k ks ih =>
    by_cases h : k.sku = sk
    · have hb : (k.sku == sk) = true := by simp [h]
      simp [incFirstSku, hb, List.find?]
    · have hb : (k.sku == sk) = false := by simp [h]
      simp [incFirstSku, hb, List.find?, ih]

theorem incFirstSku_find_frame (ks : List SKU) (sk : String) (d : Int) (s' : String)
    (hne : s' ≠ sk) :
    (incFirstSku ks sk d).find? (fun k => k.sku == s') = ks.find? (fun k => k.sku == s') := by
  induction ks with
  | nil => rfl
  | cons k ks ih =>
    by_cases h : k.sku = sk
    · have hb : (k.sku == sk) = true := by simp [h]
      have hf : (k.sku == s') = false := by
        simp only [beq_eq_false_iff_ne, ne_eq, h]
        exact fun hc => hne hc.symm
      have hf2 : (sk == s') = false := by
        simp only [beq_eq_false_iff_ne, ne_eq]
        exact fun hc => hne hc.symm
      simp [incFirstSku, hb, hf, hf2, List.find?]
    · have hb : (k.sku == sk) = false := by simp [h]
      by_cases h2 : k.sku = s'
      · have hb2 : (k.sku == s') = true := by simp [h2]
        simp [incFirstSku, hb, hb2, List.find?]
      · have hb2 : (k.sku == s') = false := by simp [h2]
        simp [incFirstSku, hb, hb2, List.find?, ih]

theorem updateOneInc_cons_pos (p : Product) (ps : List Product) (pid : Nat) (sk : String)
    (d : Int) (hb : (p.id == pid && p.skus.any (fun k => k.sku == sk)) = true) :
    updateOneInc (p :: ps) pid sk d = { p with skus := incFirstSku p.skus sk d } :: ps := by
  simp only [updateOneInc, hb, if_true]

theorem updateOneInc_cons_neg (p : Product) (ps : List Product) (pid : Nat) (sk : String)
    (d : Int) (hb : (p.id == pid && p.skus.any (fun k => k.sku == sk)) = false) :
    updateOneInc (p :: ps) pid sk d = p :: updateOneInc ps pid sk d := by
  simp only [updateOneInc, hb, Bool.false_eq_true, if_false]

theorem updateOneInc_lookup_hit (c : List Product) (pid : Nat) (sk : String) (d : Int) :
    lookupStock (updateOneInc c pid sk d) pid sk
      = (lookupStock c pid sk).map (fun n => n + d) := by
  induction c with
  | nil => rfl
  | cons p ps ih =>
    cases hb : (p.id == pid && p.skus.any (fun k => k.sku == sk)) with
    | true =>
      have hb' : (({ p with skus := incFirstSku p.skus sk d }).id == pid
          && (incFirstSku p.skus sk d).any (fun k => k.sku == sk)) = true := by
        simpa [incFirstSku_any] using hb
      rw [updateOneInc_cons_pos p ps pid sk d hb]
      simp only [lookupStock, List.find?, hb, hb', Option.some_bind]
      rw [incFirstSku_find_hit]
      cases hfind : p.skus.find? (fun k => k.sku == sk) with
      | none => rfl
      | some k => rfl
    | false =>
      rw [updateOneInc_cons_neg p ps pid sk d hb]
      simp only [lookupStock, List.find?, hb]
      exact ih

theorem updateOneInc_lookup_frame (c : List Product) (pid : Nat) (sk : String) (d : Int)
    (pid' : Nat) (sk' : String) (hne : pid' ≠ pid ∨ sk' ≠ sk) :
    lookupStock (updateOneInc c pid sk d) pid' sk' = lookupStock c pid' sk' := by
  induction c with
  | nil => rfl
  | cons p ps ih =>
    cases hb : (p.id == pid && p.skus.any (fun k => k.sku == sk)) with
    | true =>
      rw [updateOneInc_cons_pos p ps pid sk d hb]
      cases hb2 : (p.id == pid' && p.skus.any (fun k => k.sku == sk')) with
      | true =>
        have hsk : sk' ≠ sk := by
          rcases hne with hpid | hsk
          · exfalso
            have h1 := hb
            have h2 := hb2
            simp only [Bool.and_eq_true, beq_iff_eq] at h1 h2
            exact hpid (h2.1 ▸ h1.1)
          · exact hsk
        have hb2' : (({ p with skus := incFirstSku p.skus sk d }).id == pid'
            && (incFirstSku p.skus sk d).any (fun k => k.sku == sk')) = true := by
          simpa [incFirstSku_any] using hb2
        simp only [lookupStock, List.find?, hb2, hb2', Option.some_bind]
        rw [incFirstSku_find_frame _ _ _ _ hsk]
      | false =>
        have hb2' : (({ p with skus := incFirstSku p.skus sk d }).id == pid'
            && (incFirstSku p.skus sk d).any (fun k => k.sku == sk')) = false := by
          simpa [incFirstSku_any] using hb2
        simp only [lookupStock, List.find?, hb2, hb2']
    | false =>
      rw [updateOneInc_cons_neg p ps pid sk d hb]
      cases hb2 : (p.id == pid' && p.skus.any (fun k => k.sku == sk')) with
      | true => simp only [lookupStock, List.find?, hb2]
      | false =>
        simp only [lookupStock, List.find?, hb2]
        exact ih

theorem restoreStock_cons (c : List Product) (i : OrderItem) (is : List OrderItem) :
    restoreStock c (i :: is)
      = restoreStock (updateOneInc c i.product i.sku (i.quantity : Int)) is := rfl

theorem restoreStock_lookup_frame (is : List OrderItem) (c : List Product) (pid : Nat)
    (sk : String) (h : ∀ i ∈ is, pid ≠ i.product ∨ sk ≠ i.sku) :
    lookupStock (restoreStock c is) pid sk = lookupStock c pid sk := by
  induction is generalizing c with
  | nil => rfl
  | cons j js ih =>
    rw [restoreStock_cons, ih _ (fun x hx => h x (List.mem_cons_of_mem j hx))]
    exact updateOneInc_lookup_frame c j.product j.sku _ pid sk (h j (List.mem_cons_self j js))

theorem restoreStock_lookup_hit (is : List OrderItem) (c : List Product)
    (hd : (is.map (fun i => (i.product, i.sku))).Nodup) :
    ∀ i ∈ is, lookupStock (restoreStock c is) i.product i.sku
      = (lookupStock c i.product i.sku).map (fun n => n + (i.quantity : Int)) := by
  induction is generalizing c with
  | nil => intro i hi; cases hi
  | cons j js ih =>
    rw [List.map_cons, List.nodup_cons] at hd
    obtain ⟨hnotin, hd'⟩ := hd
    intro i hi
    rw [restoreStock_cons]
    rcases List.mem_cons.mp hi with rfl | hmem
    · rw [restoreStock_lookup_frame js _ i.product i.sku (by
        intro x hx
        by_contra hcon
        push_neg at hcon
        exact hnotin (by
          rw [hcon.1, hcon.2]
          exact List.mem_map.mpr ⟨x, hx, rfl⟩))]
      exact updateOneInc_lookup_hit c i.product i.sku _
    · have hne : i.product ≠ j.product ∨ i.sku ≠ j.sku := by
        by_contra hcon
        push_neg at hcon
        exact hnotin (by
          rw [← hcon.1, ← hcon.2]
          exact List.mem_map.mpr ⟨i, hmem, rfl⟩)
      have hrec := ih (updateOneInc c j.product j.sku (j.quantity : Int)) hd' i hmem
      rwa [updateOneInc_lookup_frame c j.product j.sku _ i.product i.sku hne] at hrec

theorem findOrderByIdAndUser_saveOrder (orders : List Order) (o o' : Order) (oid uid : Nat)
    (hfind : findOrderByIdAndUser orders oid uid = some o)
    (huniq : orders.Pairwise (fun a b => a.id ≠ b.id))
    (hid : o'.id = o.id) (huser : o'.user = o.user) :
    findOrderByIdAndUser (saveOrder orders o') oid uid = some o' := by
  induction orders with
  | nil => simp [findOrderByIdAndUser] at hfind
  | cons a as ih =>
    by_cases hpred : (a.id == oid && a.user == uid) = true
    · have ha : a = o := by
        have h := hfind
        simp only [findOrderByIdAndUser, List.find?, hpred] at h
        exact Option.some.inj h
      subst ha
      have hsave : saveOrder (a :: as) o' = o' :: as := by
        simp only [saveOrder, hid, beq_self_eq_true, if_true]
      have hpred' : (o'.id == oid && o'.user == uid) = true := by
        rw [hid, huser]; exact hpred
      rw [hsave]
      simp only [findOrderByIdAndUser, List.find?, hpred']
    · have hpredf : (a.id == oid && a.user == uid) = false := Bool.eq_false_iff.mpr hpred
      have hfind' : findOrderByIdAndUser as oid uid = some o := by
        have h := hfind
        simp only [findOrderByIdAndUser, List.find?, hpredf] at h
        exact h
      have hmem : o ∈ as := List.mem_of_find?_eq_some hfind'
      obtain ⟨hane, huniq'⟩ := List.pairwise_cons.mp huniq
      have haid : a.id ≠ o.id := hane o hmem
      have hbid : (a.id == o'.id) = false := by
        simp only [beq_eq_false_iff_ne, ne_eq, hid]
        exact haid
      have hsave : saveOrder (a :: as) o' = a :: saveOrder as o' := by
        simp only [saveOrder, hbid, Bool.false_eq_true, if_false]
      rw [hsave]
      simp only [findOrderByIdAndUser, List.find?, hpredf] at ih ⊢
      exact ih hfind' huniq'

/-- C6: user cancellation succeeds only from `pending` or `confirmed`
(otherwise `InvalidOrderStateError` with the store untouched); on success
it increments each of the order's SKUs' stock by the item quantity and
persists status `cancelled`, and cancelling the same order a second time
fails with `InvalidOrderStateError` and no further state change. -/
theorem cancel_restores_stock_and_is_guarded :
    (∀ (s : St) (uid oid : Nat) (reason : Option String) (o : Order),
      findOrderByIdAndUser s.orders oid uid = some o →
      o.status ≠ .pending → o.status ≠ .confirmed →
      cancelOrder s uid oid reason = (.error .invalidOrderState, s)) ∧
    (∀ (s : St) (uid oid : Nat) (reason reason2 : Option String) (o : Order),
      findOrderByIdAndUser s.orders oid uid = some o →
      (o.status = .pending ∨ o.status = .confirmed) →
      (o.items.map (fun i => (i.product, i.sku))).Nodup →
      s.orders.Pairwise (fun a b => a.id ≠ b.id) →
      statusOf (cancelOrder s uid oid reason).1 = some .cancelled ∧
      (∀ i ∈ o.items,
        lookupStock (cancelOrder s uid oid reason).2.catalog i.product i.sku
          = (lookupStock s.catalog i.product i.sku).map
              (fun n => n + (i.quantity : Int))) ∧
      cancelOrder (cancelOrder s uid oid reason).2 uid oid reason2
        = (.error .invalidOrderState, (cancelOrder s uid oid reason).2)) := by
  constructor
  · intro s uid oid reason o hfind h1 h2
    have hcond : ¬(o.status = .pending ∨ o.status = .confirmed) := by tauto
    simp [cancelOrder, hfind, hcond]
  · intro s uid oid reason reason2 o hfind hstat hnodup huniq
    have hres : cancelOrder s uid oid reason
        = (.ok { o with status := .cancelled, cancelReason := reason },
           { s with catalog := restoreStock s.catalog o.items,
                    orders := saveOrder s.orders
                      { o with status := .cancelled, cancelReason := reason } }) := by
      simp [cancelOrder, hfind, hstat]
    refine ⟨?_, ?_, ?_⟩
    · rw [hres]; rfl
    · intro i hi
      rw [hres]
      exact restoreStock_lookup_hit o.items s.catalog hnodup i hi
    · have hfind2 : findOrderByIdAndUser
          (saveOrder s.orders { o with status := .cancelled, cancelReason := reason })
          oid uid = some { o with status := .cancelled, cancelReason := reason } :=
        findOrderByIdAndUser_saveOrder s.orders o _ oid uid hfind huniq rfl rfl
      rw [hres]
      simp [cancelOrder, hfind2]

/-- C6 witness: cancelling the confirmed order with 2× SKU-D restores the
stock from 3 to 5 and sets status `cancelled`; a second cancellation
fails with `InvalidOrderStateError`. -/
theorem cancel_restores_stock_and_is_guarded_witness :
    (statusOf (cancelOrder stC6 4 11 (some "changed")).1 = some .cancelled ∧
     (∀ i ∈ confirmedOrderD.items,
        lookupStock (cancelOrder stC6 4 11 (some "changed")).2.catalog i.product i.sku
          = (lookupStock stC6.catalog i.product i.sku).map
              (fun n => n + (i.quantity : Int))) ∧
     cancelOrder (cancelOrder stC6 4 11 (some "changed")).2 4 11 (some "again")
        = (.error .invalidOrderState, (cancelOrder stC6 4 11 (some "changed")).2)) ∧
    lookupStock (cancelOrder stC6 4 11 (some "changed")).2.catalog 6 "SKU-D" = some 5 ∧
    lookupStock stC6.catalog 6 "SKU-D" = some 3 :=
  ⟨cancel_restores_stock_and_is_guarded.2 stC6 4 11 (some "changed") (some "again")
      confirmedOrderD rfl (Or.inr rfl) (by simp [confirmedOrderD]) (by simp [stC6]),
   rfl, rfl⟩

end Arc
